import Mathlib

/-!
Shallow embedding of the backend-agnostic rendering and presentation pipeline
of the dolphin repository (Source/Core/VideoCommon/RenderBase.cpp and its
header, plus the DX11 surface-handling code in
Source/Core/VideoBackends/D3D/Render.cpp).

Modelling conventions:
* C++ `float`/`double` computations are embedded over `ℚ` with exact
  arithmetic; `std::ceil` becomes `Int.ceil`, the C `%` operator on `int`
  becomes `Int.tmod` (truncated remainder, the C++ semantics), and
  `std::round` (round half away from zero) is modelled explicitly.
* Global configuration reads (`g_ActiveConfig`, `SConfig`) are passed in as
  explicit record arguments.
* Calls into collaborators (texture cache, vertex manager, backend, OSD,
  analytics, encoder) are modelled as elements of explicit effect lists
  returned next to the state, in the order the source performs them.
* Pointer-valued bookkeeping that no claim depends on
  (`m_last_xfb_texture`, `m_last_xfb_region`) is elided from the state.
-/

/-- Aspect mode, from VideoCommon/VideoConfig.h (`enum class AspectMode`). -/
inductive AspectMode
  | auto
  | analogWide
  | analog
  | stretch
deriving DecidableEq, Repr

/-- Geometry inputs read by the draw-rectangle and aspect code of
RenderBase.cpp: the backbuffer size (`m_backbuffer_width/height`), the
active config fields used (`aspect_mode`, `bCrop`), the current widescreen
flag `m_aspect_wide`, and the value returned by
`VideoInterface::GetAspectRatio()`. -/
structure GeomIn where
  backbufferWidth : ℚ
  backbufferHeight : ℚ
  aspectMode : AspectMode
  crop : Bool
  aspectWide : Bool
  sourceAspect : ℚ
deriving Repr

/-- Model of `AspectToWidescreen` (RenderBase.cpp line 78):
`aspect * ((16.0f / 9.0f) / (4.0f / 3.0f))`. -/
def aspectToWidescreen (aspect : ℚ) : ℚ :=
  aspect * ((16 / 9) / (4 / 3))

namespace Renderer

/-- Model of `Renderer::CalculateDrawAspectRatio` (RenderBase.cpp
lines 360-378). -/
def calculateDrawAspect (g : GeomIn) : ℚ :=
  if g.aspectMode = AspectMode.stretch then
    g.backbufferWidth / g.backbufferHeight
  else if g.aspectMode = AspectMode.analogWide ∨
          (g.aspectMode ≠ AspectMode.analog ∧ g.aspectWide) then
    aspectToWidescreen g.sourceAspect
  else
    g.sourceAspect

/-- Pre-rounding part of `Renderer::UpdateDrawRectangle` (RenderBase.cpp
lines 467-508): the floating-point `draw_width`/`draw_height` pair right
before the divisibility-by-4 normalization.  The crop step only rewrites
`crop_width`/`crop_height`; the fit step multiplies draw and crop
dimensions by the same window scale. -/
def drawDims (g : GeomIn) : ℚ × ℚ :=
  let a := calculateDrawAspect g
  let cw₀ := a
  let ch₀ := (1 : ℚ)
  let cwch :=
    if g.crop ∧ g.aspectMode ≠ AspectMode.stretch then
      let expected : ℚ :=
        if g.aspectMode = AspectMode.analogWide ∨
           (g.aspectMode ≠ AspectMode.analog ∧ g.aspectWide) then
          16 / 9
        else
          4 / 3
      if cw₀ / ch₀ ≥ expected then (ch₀ * expected, ch₀)
      else (cw₀, cw₀ / expected)
    else (cw₀, ch₀)
  let cw := cwch.1
  let ch := cwch.2
  if g.backbufferWidth / g.backbufferHeight ≥ cw / ch then
    (a * (g.backbufferHeight / ch), 1 * (g.backbufferHeight / ch))
  else
    (a * (g.backbufferWidth / cw), 1 * (g.backbufferWidth / cw))

end Renderer

/-- The `ceil` then truncate-to-lower-multiple-of-4 step applied to each
draw dimension (RenderBase.cpp lines 511-512):
`std::ceil(x) - static_cast<int>(std::ceil(x)) % 4`, with the C++ `%`
(truncated remainder) modelled by `Int.tmod`. -/
def ceilTrunc4 (q : ℚ) : ℤ :=
  ⌈q⌉ - Int.tmod ⌈q⌉ 4

/-- Model of `std::round`: round half away from zero. -/
def roundAwayFromZero (q : ℚ) : ℤ :=
  if 0 ≤ q then ⌊q + 1 / 2⌋ else -⌊-q + 1 / 2⌋

/-- `TargetRectangle` (four integer edges), from VideoCommon. -/
structure TargetRectangle where
  left : ℤ
  top : ℤ
  right : ℤ
  bottom : ℤ
deriving DecidableEq, Repr

namespace Renderer

/-- Model of the rectangle produced by `Renderer::UpdateDrawRectangle`
(RenderBase.cpp lines 467-518).  The aspect-ratio-hack block
(lines 422-465) only writes `g_Config.fAspectRatioHackW/H`, which the
rectangle does not read, so it is elided. -/
def updateDrawRectangle (g : GeomIn) : TargetRectangle :=
  let dims := drawDims g
  let dw := ceilTrunc4 dims.1
  let dh := ceilTrunc4 dims.2
  let l := roundAwayFromZero (g.backbufferWidth / 2 - (dw : ℚ) / 2)
  let t := roundAwayFromZero (g.backbufferHeight / 2 - (dh : ℚ) / 2)
  ⟨l, t, l + dw, t + dh⟩

/-- Model of `Renderer::ScaleToDisplayAspectRatio` (RenderBase.cpp
lines 398-411). -/
def scaleToDisplayAspect (g : GeomIn) (width height : ℚ) : ℚ × ℚ :=
  let drawAspect := calculateDrawAspect g
  if width / height ≥ drawAspect then (width, width / drawAspect)
  else (height * drawAspect, height)

/-- Model of `Renderer::CalculateOutputDimensions` (RenderBase.cpp
lines 534-571). -/
def calculateOutputDimensions (g : GeomIn) (width height : ℤ) : ℤ × ℤ :=
  let w := max width 1
  let h := max height 1
  let scaled := scaleToDisplayAspect g (w : ℚ) (h : ℚ)
  let cropped :=
    if g.crop then
      let currentAspect := scaled.1 / scaled.2
      let expected : ℚ :=
        if g.aspectMode = AspectMode.analogWide ∨
           (g.aspectMode ≠ AspectMode.analog ∧ g.aspectWide) then
          16 / 9
        else
          4 / 3
      if currentAspect > expected then (scaled.2 * expected, scaled.2)
      else (scaled.1, scaled.1 / expected)
    else scaled
  let wi := (⌈cropped.1⌉ : ℤ)
  let hi := (⌈cropped.2⌉ : ℤ)
  (wi - Int.tmod wi 4, hi - Int.tmod hi 4)

end Renderer

/-- Truncating an integer down by its remainder mod 4 yields a multiple
of 4 (this is the shared normalization step of `UpdateDrawRectangle` and
`CalculateOutputDimensions`). -/
theorem dvd_four_sub_tmod (c : ℤ) : (4 : ℤ) ∣ c - Int.tmod c 4 := by
  have h := Int.tdiv_add_tmod c 4
  exact ⟨c.tdiv 4, by omega⟩

theorem dvd_four_ceilTrunc4 (q : ℚ) : (4 : ℤ) ∣ ceilTrunc4 q :=
  dvd_four_sub_tmod ⌈q⌉

/-- Stereo mode, from VideoCommon/VideoConfig.h (`enum class StereoMode`). -/
inductive StereoMode
  | off
  | sbs
  | tab
  | anaglyph
  | quadBuffer
deriving DecidableEq, Repr

/-- Snapshot of the configuration fields tracked by
`Renderer::CheckForConfigChanges` (RenderBase.cpp lines 245-251):
shader host config bits, stereo mode, multisample count, max anisotropy,
forced filtering, vsync, and bounding-box enable. -/
structure TrackedConfig where
  hostConfigBits : ℕ
  stereoMode : StereoMode
  multisamples : ℕ
  maxAnisotropy : ℤ
  forceFiltering : Bool
  vsyncActive : Bool
  bboxEnable : Bool
deriving DecidableEq, Repr

/-- Bit constants of `Renderer::ConfigChangeBits` (RenderBase.h). -/
def CONFIG_CHANGE_BIT_HOST_CONFIG : ℕ := 1 <<< 0

def CONFIG_CHANGE_BIT_MULTISAMPLES : ℕ := 1 <<< 1

def CONFIG_CHANGE_BIT_STEREO_MODE : ℕ := 1 <<< 2

def CONFIG_CHANGE_BIT_TARGET_SIZE : ℕ := 1 <<< 3

def CONFIG_CHANGE_BIT_ANISOTROPY : ℕ := 1 <<< 4

def CONFIG_CHANGE_BIT_FORCE_TEXTURE_FILTERING : ℕ := 1 <<< 5

def CONFIG_CHANGE_BIT_VSYNC : ℕ := 1 <<< 6

def CONFIG_CHANGE_BIT_BBOX : ℕ := 1 <<< 7

namespace Renderer

/-- Change bitmask computed by `Renderer::CheckForConfigChanges`
(RenderBase.cpp lines 259-276).  `old` is the snapshot taken before
`UpdateActiveConfig()`, `new'` the values after it, and
`targetSizeChanged` the boolean result of `CalculateTargetSize()`. -/
def changedBits (old new' : TrackedConfig) (targetSizeChanged : Bool) : ℕ :=
  let b := 0
  let b := if old.hostConfigBits ≠ new'.hostConfigBits then
             b ||| CONFIG_CHANGE_BIT_HOST_CONFIG else b
  let b := if old.stereoMode ≠ new'.stereoMode then
             b ||| CONFIG_CHANGE_BIT_STEREO_MODE else b
  let b := if old.multisamples ≠ new'.multisamples then
             b ||| CONFIG_CHANGE_BIT_MULTISAMPLES else b
  let b := if old.maxAnisotropy ≠ new'.maxAnisotropy then
             b ||| CONFIG_CHANGE_BIT_ANISOTROPY else b
  let b := if old.forceFiltering ≠ new'.forceFiltering then
             b ||| CONFIG_CHANGE_BIT_FORCE_TEXTURE_FILTERING else b
  let b := if old.vsyncActive ≠ new'.vsyncActive then
             b ||| CONFIG_CHANGE_BIT_VSYNC else b
  let b := if old.bboxEnable ≠ new'.bboxEnable then
             b ||| CONFIG_CHANGE_BIT_BBOX else b
  let b := if targetSizeChanged then
             b ||| CONFIG_CHANGE_BIT_TARGET_SIZE else b
  b

end Renderer

/-- Actions performed by `Renderer::CheckForConfigChanges` after computing
the mask. -/
inductive ConfigEffect
  | onConfigChanged (bits : ℕ)
  | reloadShaders
deriving DecidableEq, Repr

namespace Renderer

/-- Model of the tail of `Renderer::CheckForConfigChanges` (RenderBase.cpp
lines 278-293): nothing on a zero mask; otherwise forward the mask to the
backend hook `OnConfigChanged`, and when the host-config or multisample
bit is set additionally drop the bound pipeline, invalidate the vertex
manager pipeline object and push the new host config to the shader cache
(collapsed into the single `reloadShaders` effect). -/
def checkForConfigChanges (old new' : TrackedConfig)
    (targetSizeChanged : Bool) : List ConfigEffect :=
  let bits := changedBits old new' targetSizeChanged
  if bits = 0 then []
  else
    [ConfigEffect.onConfigChanged bits] ++
      (if bits &&& (CONFIG_CHANGE_BIT_HOST_CONFIG |||
                    CONFIG_CHANGE_BIT_MULTISAMPLES) ≠ 0 then
        [ConfigEffect.reloadShaders]
      else [])

end Renderer

/-- `MAX_XFB_WIDTH` from VideoCommon/VideoCommon.h. -/
def MAX_XFB_WIDTH : ℕ := 720

/-- `MAX_XFB_HEIGHT` from VideoCommon/VideoCommon.h. -/
def MAX_XFB_HEIGHT : ℕ := 574

/-- Configuration values read by `Renderer::Swap` (RenderBase.cpp
lines 906-1061): `g_ActiveConfig.suggested_aspect_mode`,
`SConfig::GetInstance().bWii`, `Config::SYSCONF_WIDESCREEN`,
`g_ActiveConfig.bSyncRefreshRate`, and the two inputs of
`Renderer::IsFrameDumping` (`m_screenshot_request`,
`SConfig::m_DumpFrames`). -/
structure SwapConfig where
  suggestedAspectMode : AspectMode
  isWii : Bool
  sysconfWidescreen : Bool
  syncRefreshRate : Bool
  screenshotRequested : Bool
  dumpFrames : Bool
deriving DecidableEq, Repr

/-- Result of `TextureCacheBase::GetXFBTexture`: a cache entry with a
stable identifier plus the dimensions of its backing texture. -/
structure XFBEntry where
  id : ℕ
  texWidth : ℕ
  texHeight : ℕ
  nativeWidth : ℕ
deriving DecidableEq, Repr

/-- Per-call inputs of `Renderer::Swap`: the scan-out arguments, the
tick counter, the answer the texture cache gives for this call, the
flush classification counts returned by
`VertexManagerBase::ResetFlushAspectRatioCount`, and the current
refresh rate reported by the video interface. -/
structure SwapIn where
  xfbAddr : ℕ
  fbWidth : ℕ
  fbStride : ℕ
  fbHeight : ℕ
  ticks : ℕ
  xfbEntry : Option XFBEntry
  flushCount43 : ℕ
  flushCountAnamorphic : ℕ
  currentRefreshRate : ℚ
deriving DecidableEq, Repr

/-- Renderer state mutated by `Renderer::Swap`: `m_aspect_wide`, the
XFB dedup/tracking fields, the global `frameCount`, and the
fullscreen/refresh-rate pair. -/
structure SwapState where
  aspectWide : Bool
  lastXfbId : ℕ
  lastXfbTicks : ℕ
  lastXfbWidth : ℕ
  lastXfbHeight : ℕ
  frameCount : ℤ
  fullscreenState : Bool
  lastRefreshRate : ℚ
deriving DecidableEq, Repr

/-- Externally visible calls made by `Renderer::Swap`, in source order. -/
inductive SwapEffect
  | effFlushFrameDump
  | effChangeFullscreenState (enable : Bool) (rate : ℚ)
  | effGetXFBTexture (addr stride height : ℕ)
  | effVertexManagerFlush
  | effResetAPIState
  | effBindBackbuffer
  | effUpdateDrawRect
  | effRenderXFBToScreen
  | effDrawOverlays
  | effPresentBackbuffer
  | effSetWindowSize (w h : ℕ)
  | effPerformanceSample
  | effDumpCurrentFrame
  | effCleanupTextureCache (frame : ℤ)
  | effCheckConfigChanges
  | effRestoreAPIState
  | effFlush
deriving DecidableEq, Repr

namespace Renderer

/-- Model of `Renderer::IsFrameDumping` (RenderBase.cpp
lines 1063-1072). -/
def isFrameDumpingCfg (cfg : SwapConfig) : Bool :=
  cfg.screenshotRequested || cfg.dumpFrames

/-- The `m_aspect_wide` update at the top of `Renderer::Swap`
(RenderBase.cpp lines 909-933).  The GameCube branch compares the
4:3-like / anamorphic flush counts against 0.75 of the frame total;
`count > 0.75 * total` over exact arithmetic is `4 * count > 3 * total`. -/
def updateAspectWide (cfg : SwapConfig) (prevWide : Bool)
    (count43 countAnamorphic : ℕ) : Bool :=
  if cfg.suggestedAspectMode = AspectMode.analog ∨
     cfg.suggestedAspectMode = AspectMode.analogWide then
    cfg.suggestedAspectMode = AspectMode.analogWide
  else if cfg.isWii then
    cfg.sysconfWidescreen
  else
    let total := count43 + countAnamorphic
    if prevWide then !(decide (4 * count43 > 3 * total))
    else decide (4 * countAnamorphic > 3 * total)

/-- Model of `Renderer::Swap` (RenderBase.cpp lines 906-1061).  Returns
the new renderer state together with the list of collaborator calls the
body performs, in order.  The presentation path collapses the overlay
block (`DrawDebugText`, `OSD::DrawMessages`, `RenderImGui` under the
imgui lock) into the single `effDrawOverlays` effect, and elides the
statements that only touch elided state (`stats.ResetFrame`,
`RetrieveAsyncShaders`, `BeginImGuiFrame`, pipeline-object
invalidation, `FlushEFBCopies`, `iSaveTargetId`, the fifo callback). -/
def swap (cfg : SwapConfig) (inp : SwapIn) (s : SwapState) :
    SwapState × List SwapEffect :=
  let s₁ := { s with aspectWide :=
    (updateAspectWide cfg s.aspectWide inp.flushCount43
      inp.flushCountAnamorphic) }
  let eff₀ : List SwapEffect := [SwapEffect.effFlushFrameDump]
  let refresh :=
    if s₁.lastRefreshRate ≠ inp.currentRefreshRate then
      let s' := { s₁ with lastRefreshRate := inp.currentRefreshRate }
      if s'.fullscreenState ∧ cfg.syncRefreshRate then
        ({ s' with fullscreenState := true },
         [SwapEffect.effChangeFullscreenState true inp.currentRefreshRate])
      else (s', ([] : List SwapEffect))
    else (s₁, ([] : List SwapEffect))
  let s₂ := refresh.1
  let eff₁ := refresh.2
  if inp.xfbAddr ≠ 0 ∧ inp.fbWidth ≠ 0 ∧ inp.fbStride ≠ 0 ∧
     inp.fbHeight ≠ 0 then
    let effLookup :=
      [SwapEffect.effGetXFBTexture inp.xfbAddr inp.fbStride inp.fbHeight]
    let body :=
      match inp.xfbEntry with
      | some entry =>
        if entry.id ≠ s₂.lastXfbId then
          let s₃ := { s₂ with
            lastXfbId := entry.id
            lastXfbTicks := inp.ticks }
          let s₄ := { s₃ with frameCount := s₃.frameCount + 1 }
          (s₄,
           [SwapEffect.effVertexManagerFlush,
            SwapEffect.effResetAPIState,
            SwapEffect.effBindBackbuffer,
            SwapEffect.effUpdateDrawRect,
            SwapEffect.effRenderXFBToScreen,
            SwapEffect.effDrawOverlays,
            SwapEffect.effPresentBackbuffer,
            SwapEffect.effSetWindowSize entry.texWidth entry.texHeight,
            SwapEffect.effPerformanceSample] ++
           (if isFrameDumpingCfg cfg then
             [SwapEffect.effDumpCurrentFrame] else []) ++
           [SwapEffect.effCleanupTextureCache s₄.frameCount,
            SwapEffect.effCheckConfigChanges,
            SwapEffect.effRestoreAPIState])
        else (s₂, [SwapEffect.effFlush])
      | none => (s₂, [SwapEffect.effFlush])
    let s₅ := { body.1 with
      lastXfbWidth :=
        if inp.fbStride < 1 ∨ inp.fbStride > MAX_XFB_WIDTH then
          MAX_XFB_WIDTH else inp.fbStride
      lastXfbHeight :=
        if inp.fbHeight < 1 ∨ inp.fbHeight > MAX_XFB_HEIGHT then
          MAX_XFB_HEIGHT else inp.fbHeight }
    (s₅, eff₀ ++ eff₁ ++ effLookup ++ body.2)
  else
    (s₂, eff₀ ++ eff₁ ++ [SwapEffect.effFlush])

end Renderer

/-- Renderer-side state of the frame-dump subsystem (RenderBase.h):
`m_frame_dump_frame_running`, `m_frame_dump_thread_running`,
`m_last_frame_exported`, plus the two inputs of `IsFrameDumping`
(`m_screenshot_request`, `SConfig::m_DumpFrames`). -/
structure DumpState where
  frameRunning : Bool
  threadRunning : Bool
  lastFrameExported : Bool
  screenshotRequested : Bool
  dumpFrames : Bool
deriving DecidableEq, Repr

/-- Synchronization actions performed by the render-thread side of the
frame-dump subsystem, in program order.  `aWaitDone` is the blocking
wait on the worker's done event (`m_frame_dump_done.Wait()`), `aJoinThread`
the `std::thread::join` of the worker. -/
inductive DumpAction
  | aStoreJob
  | aSpawnThread
  | aSignalStart
  | aWaitDone
  | aJoinThread
deriving DecidableEq, Repr

namespace Renderer

/-- Model of `Renderer::IsFrameDumping` over the dump-subsystem state. -/
def isFrameDumping (s : DumpState) : Bool :=
  s.screenshotRequested || s.dumpFrames

/-- Model of `Renderer::FinishFrameData` (RenderBase.cpp
lines 1208-1215): when a job is outstanding, block on the worker's done
event, then clear the outstanding flag. -/
def finishFrameData (s : DumpState) : DumpState × List DumpAction :=
  if s.frameRunning then
    ({ s with frameRunning := false }, [DumpAction.aWaitDone])
  else (s, [])

/-- Model of `Renderer::DumpFrameData` (RenderBase.cpp lines 1191-1206):
store the job description, lazily start the worker thread when it is not
running, signal the start event (no blocking), and mark the job
outstanding. -/
def dumpFrameData (s : DumpState) : DumpState × List DumpAction :=
  if s.threadRunning then
    ({ s with frameRunning := true },
     [DumpAction.aStoreJob, DumpAction.aSignalStart])
  else
    ({ s with threadRunning := true, frameRunning := true },
     [DumpAction.aStoreJob, DumpAction.aSpawnThread, DumpAction.aSignalStart])

/-- The part of `Renderer::ShutdownFrameDumping` after its leading
`FlushFrameDump()` call (RenderBase.cpp lines 1175-1188): when the worker
thread is running, first wait for any outstanding job's done event
(`FinishFrameData`), then clear the running flag, signal start to wake
the worker, and join it. -/
def shutdownRest (s : DumpState) : DumpState × List DumpAction :=
  if s.threadRunning then
    let fin := finishFrameData s
    ({ fin.1 with threadRunning := false },
     fin.2 ++ [DumpAction.aSignalStart, DumpAction.aJoinThread])
  else (s, [])

/-- Model of `Renderer::FlushFrameDump` (RenderBase.cpp lines 1144-1168).
`mapOk` is the result of `AbstractStagingTexture::Map` on the readback
texture; on failure the frame is dropped and no new job is queued.  The
tail call to `ShutdownFrameDumping` is modelled by `shutdownRest`
directly: on that call `m_last_frame_exported` has just been cleared, so
the inner `ShutdownFrameDumping`'s own leading `FlushFrameDump()` returns
immediately. -/
def flushFrameDump (mapOk : Bool) (s : DumpState) :
    DumpState × List DumpAction :=
  if s.lastFrameExported then
    let fin := finishFrameData s
    let queued := if mapOk then dumpFrameData fin.1 else (fin.1, [])
    let s' := { queued.1 with lastFrameExported := false }
    if !(isFrameDumping s') then
      let sd := shutdownRest s'
      (sd.1, fin.2 ++ queued.2 ++ sd.2)
    else (s', fin.2 ++ queued.2)
  else (s, [])

/-- Model of `Renderer::ShutdownFrameDumping` (RenderBase.cpp
lines 1170-1189): flush the last queued readback to the encoder, then
(when the worker is running) wait for the outstanding job, wake the
worker with the stop flag cleared, and join it. -/
def shutdownFrameDumping (mapOk : Bool) (s : DumpState) :
    DumpState × List DumpAction :=
  let fl := flushFrameDump mapOk s
  let sd := shutdownRest fl.1
  (sd.1, fl.2 ++ sd.2)

end Renderer

/-- State visible to one iteration of the frame-dump worker loop
(`Renderer::RunFrameDumps`): the loop-local `dump_to_avi` and
`frame_dump_started` flags, plus the globals it reads and writes
(`SConfig::m_DumpFrames`, `m_screenshot_request`). -/
structure WorkerState where
  dumpToAvi : Bool
  frameDumpStarted : Bool
  dumpFrames : Bool
  screenshotRequested : Bool
deriving DecidableEq, Repr

/-- Observable actions of one worker-loop iteration. -/
inductive WorkerAction
  | wWriteScreenshot
  | wSignalScreenshotDone
  | wStartSink (avi : Bool)
  | wWriteFrame (avi : Bool)
  | wSignalDone
deriving DecidableEq, Repr

namespace Renderer

/-- The `dump_to_avi` initialization at the top of
`Renderer::RunFrameDumps` (RenderBase.cpp lines 1220-1231):
`!g_ActiveConfig.bDumpFramesAsImages`, forced to false when the build
lacks libav (`HAVE_FFMPEG` undefined). -/
def runFrameDumpsInit (dumpFramesAsImages hasFFmpeg : Bool) : Bool :=
  !dumpFramesAsImages && hasFFmpeg

/-- One iteration of the worker loop body of `Renderer::RunFrameDumps`
(RenderBase.cpp lines 1239-1279), entered after the start event fired
with the running flag still set.  `startOk` is the result of the
`StartFrameDumpToAVI` / `StartFrameDumpToImage` call if one is made
(false covers a missing encoder or the user declining the overwrite
prompt).  A pending screenshot is written first; then, if continuous
dumping is enabled, the sink is lazily opened, and on open failure
dumping is disabled (`m_DumpFrames = false`) and no frame is written;
finally the done event is signalled. -/
def workerIteration (startOk : Bool) (s : WorkerState) :
    WorkerState × List WorkerAction :=
  let shot :=
    if s.screenshotRequested then
      ({ s with screenshotRequested := false },
       [WorkerAction.wWriteScreenshot, WorkerAction.wSignalScreenshotDone])
    else (s, ([] : List WorkerAction))
  let s₁ := shot.1
  let dump :=
    if s₁.dumpFrames then
      let started :=
        if !s₁.frameDumpStarted then
          (if startOk then
            ({ s₁ with frameDumpStarted := true },
             [WorkerAction.wStartSink s₁.dumpToAvi])
          else
            ({ s₁ with dumpFrames := false },
             [WorkerAction.wStartSink s₁.dumpToAvi]))
        else (s₁, ([] : List WorkerAction))
      if started.1.frameDumpStarted then
        (started.1, started.2 ++ [WorkerAction.wWriteFrame started.1.dumpToAvi])
      else started
    else (s₁, ([] : List WorkerAction))
  (dump.1, shot.2 ++ dump.2 ++ [WorkerAction.wSignalDone])

end Renderer

/-- Surface-related renderer state shared between the UI thread and the
render thread: the pending-notification flags and handle guarded by
`m_swap_mutex` (RenderBase.h), and the surface-derived state owned by
the render thread (`m_backbuffer_width/height`, the live swap-chain
surface, `m_last_fullscreen_state` from the DX11 backend). -/
structure SurfaceState where
  surfaceChanged : Bool
  surfaceResized : Bool
  newSurfaceHandle : Option ℕ
  currentSurface : ℕ
  backbufferWidth : ℕ
  backbufferHeight : ℕ
  lastFullscreenState : Bool
deriving DecidableEq, Repr

/-- Values the render thread queries from the windowing system during
`BindBackbuffer`: the exclusive-fullscreen state
(`D3D::GetFullscreenState`) and the swap-chain dimensions read by
`UpdateBackbufferSize` after a reset/resize. -/
structure SurfaceEnv where
  fullscreenState : Bool
  surfaceWidth : ℕ
  surfaceHeight : ℕ
deriving DecidableEq, Repr

/-- Trace of a UI-thread notification call, recording the
`std::lock_guard` on `m_swap_mutex` around the flag store. -/
inductive LockAction
  | lockSwapMutex
  | setPendingState
  | unlockSwapMutex
deriving DecidableEq, Repr

namespace Renderer

/-- Model of `Renderer::ChangeSurface` (RenderBase.cpp lines 385-390):
under the swap mutex, store the new handle and raise the
surface-changed flag.  Nothing else is touched. -/
def changeSurface (handle : ℕ) (s : SurfaceState) :
    SurfaceState × List LockAction :=
  ({ s with newSurfaceHandle := some handle, surfaceChanged := true },
   [LockAction.lockSwapMutex, LockAction.setPendingState,
    LockAction.unlockSwapMutex])

/-- Model of `Renderer::ResizeSurface` (RenderBase.cpp lines 392-396):
under the swap mutex, raise the surface-resized flag. -/
def resizeSurface (s : SurfaceState) : SurfaceState × List LockAction :=
  ({ s with surfaceResized := true },
   [LockAction.lockSwapMutex, LockAction.setPendingState,
    LockAction.unlockSwapMutex])

end Renderer

namespace DX11

/-- Model of `DX11::Renderer::CheckForSurfaceChange`
(Source/Core/VideoBackends/D3D/Render.cpp): when the surface-changed
flag is set, clear it, move to the pending handle (`D3D::Reset`), drop
the pending handle, and refresh the backbuffer size from the new swap
chain (`UpdateBackbufferSize` clamps to at least 1). -/
def checkForSurfaceChange (env : SurfaceEnv) (s : SurfaceState) :
    SurfaceState :=
  if s.surfaceChanged then
    { s with
      surfaceChanged := false
      currentSurface := s.newSurfaceHandle.getD s.currentSurface
      newSurfaceHandle := none
      backbufferWidth := max env.surfaceWidth 1
      backbufferHeight := max env.surfaceHeight 1 }
  else s

/-- Model of `DX11::Renderer::CheckForSurfaceResize`
(Source/Core/VideoBackends/D3D/Render.cpp): the resized flag is
test-and-cleared; when it was set, or the polled exclusive-fullscreen
state differs from the last seen one, the swap chain is resized and the
backbuffer size refreshed. -/
def checkForSurfaceResize (env : SurfaceEnv) (s : SurfaceState) :
    SurfaceState :=
  let fullscreenChanged := env.fullscreenState ≠ s.lastFullscreenState
  if s.surfaceResized ∨ fullscreenChanged then
    { s with
      surfaceResized := false
      lastFullscreenState := env.fullscreenState
      backbufferWidth := max env.surfaceWidth 1
      backbufferHeight := max env.surfaceHeight 1 }
  else { s with surfaceResized := false }

/-- Model of `DX11::Renderer::BindBackbuffer`: drain the pending
surface-change and resize notifications, then bind and clear the swap
chain framebuffer (the bind itself does not touch this state). -/
def bindBackbuffer (env : SurfaceEnv) (s : SurfaceState) : SurfaceState :=
  checkForSurfaceResize env (checkForSurfaceChange env s)

end DX11

/-- One step of the interleaved execution of the UI thread and the render
thread, as far as surface state is concerned.  UI steps may occur at any
point relative to the render thread's bind/draw/present cycle. -/
inductive SurfaceOp
  | uiChangeSurface (handle : ℕ)
  | uiResizeSurface
  | rBindBackbuffer (env : SurfaceEnv)
  | rDraw
  | rPresent
deriving DecidableEq, Repr

namespace Renderer

/-- State transition of a single interleaving step: the UI notifications
only write the pending flags, draws and presents do not touch surface
state at all, and `BindBackbuffer` drains the flags. -/
def surfaceStep : SurfaceOp → SurfaceState → SurfaceState
  | SurfaceOp.uiChangeSurface h, s => (changeSurface h s).1
  | SurfaceOp.uiResizeSurface, s => (resizeSurface s).1
  | SurfaceOp.rBindBackbuffer env, s => DX11.bindBackbuffer env s
  | SurfaceOp.rDraw, s => s
  | SurfaceOp.rPresent, s => s

end Renderer

/-- C3: after `Renderer::UpdateDrawRectangle` the target rectangle's width
(`right - left`) and height (`bottom - top`) are both divisible by 4, and
`Renderer::CalculateOutputDimensions` likewise returns a width and height
divisible by 4; in each case the dimension is the ceiling of the computed
rational dimension truncated down to a multiple of 4. -/
theorem c3_alignment_invariant (g : GeomIn) (w h : ℤ) :
    (Renderer.updateDrawRectangle g).right -
        (Renderer.updateDrawRectangle g).left =
      ceilTrunc4 (Renderer.drawDims g).1 ∧
    (Renderer.updateDrawRectangle g).bottom -
        (Renderer.updateDrawRectangle g).top =
      ceilTrunc4 (Renderer.drawDims g).2 ∧
    (4 : ℤ) ∣ ((Renderer.updateDrawRectangle g).right -
               (Renderer.updateDrawRectangle g).left) ∧
    (4 : ℤ) ∣ ((Renderer.updateDrawRectangle g).bottom -
               (Renderer.updateDrawRectangle g).top) ∧
    (4 : ℤ) ∣ (Renderer.calculateOutputDimensions g w h).1 ∧
    (4 : ℤ) ∣ (Renderer.calculateOutputDimensions g w h).2 := by
  refine ⟨?_, ?_, ?_, ?_, ?_, ?_⟩
  · simp [Renderer.updateDrawRectangle]
  · simp [Renderer.updateDrawRectangle]
  · simp only [Renderer.updateDrawRectangle, add_sub_cancel_left]
    exact dvd_four_ceilTrunc4 _
  · simp only [Renderer.updateDrawRectangle, add_sub_cancel_left]
    exact dvd_four_ceilTrunc4 _
  · simp only [Renderer.calculateOutputDimensions]
    exact dvd_four_sub_tmod _
  · simp only [Renderer.calculateOutputDimensions]
    exact dvd_four_sub_tmod _

/-- Division of matching products: the common window-fit factor cancels
out of the draw-dimension ratio. -/
theorem mul_div_one_mul (a f : ℚ) (hf : f ≠ 0) : a * f / (1 * f) = a := by
  field_simp

/-- C7: for every aspect mode other than Stretch (given a positive source
aspect ratio and backbuffer), the pre-rounding draw width and height
computed by `UpdateDrawRectangle` are in exactly the ratio returned by
`CalculateDrawAspectRatio`, crop mode included; the final integer
dimensions differ from that ratio only by the ceil-and-truncate rounding
recorded in `c3`. -/
theorem c7_aspect_preservation (g : GeomIn)
    (hmode : g.aspectMode ≠ AspectMode.stretch)
    (ha : 0 < g.sourceAspect)
    (hw : 0 < g.backbufferWidth)
    (hh : 0 < g.backbufferHeight) :
    (Renderer.drawDims g).1 / (Renderer.drawDims g).2 =
      Renderer.calculateDrawAspect g := by
  have hA : 0 < Renderer.calculateDrawAspect g := by
    unfold Renderer.calculateDrawAspect aspectToWidescreen
    split_ifs with h1 h2
    · exact absurd h1 hmode
    · positivity
    · exact ha
  set A := Renderer.calculateDrawAspect g with hAdef
  unfold Renderer.drawDims
  rw [← hAdef]
  dsimp only
  split_ifs
  all_goals exact mul_div_one_mul _ _ (by positivity)

/-- Witness for `c7_aspect_preservation` at a concrete input: 800x600
backbuffer, Analog mode with a 4:3 source, crop enabled. -/
theorem c7_aspect_preservation_witness :
    (GeomIn.mk 800 600 AspectMode.analog true false (4 / 3)).aspectMode ≠
        AspectMode.stretch ∧
    (0 : ℚ) < 4 / 3 ∧ (0 : ℚ) < 800 ∧ (0 : ℚ) < 600 ∧
    (Renderer.drawDims
        (GeomIn.mk 800 600 AspectMode.analog true false (4 / 3))).1 /
      (Renderer.drawDims
        (GeomIn.mk 800 600 AspectMode.analog true false (4 / 3))).2 =
      Renderer.calculateDrawAspect
        (GeomIn.mk 800 600 AspectMode.analog true false (4 / 3)) :=
  ⟨by decide, by norm_num, by norm_num, by norm_num,
   c7_aspect_preservation _ (by decide) (by norm_num) (by norm_num)
     (by norm_num)⟩

/-- C4: the change bitmask of `Renderer::CheckForConfigChanges`
decomposes as the sum of the per-field bits, each contributed exactly
when its field differs, and it is 0 if and only if no tracked field
differs and target-size recomputation reported no change. -/
theorem c4_change_mask_zero_iff_unchanged (old new' : TrackedConfig)
    (tsc : Bool) :
    Renderer.changedBits old new' tsc =
      (if old.hostConfigBits ≠ new'.hostConfigBits then
        CONFIG_CHANGE_BIT_HOST_CONFIG else 0) +
      (if old.stereoMode ≠ new'.stereoMode then
        CONFIG_CHANGE_BIT_STEREO_MODE else 0) +
      (if old.multisamples ≠ new'.multisamples then
        CONFIG_CHANGE_BIT_MULTISAMPLES else 0) +
      (if old.maxAnisotropy ≠ new'.maxAnisotropy then
        CONFIG_CHANGE_BIT_ANISOTROPY else 0) +
      (if old.forceFiltering ≠ new'.forceFiltering then
        CONFIG_CHANGE_BIT_FORCE_TEXTURE_FILTERING else 0) +
      (if old.vsyncActive ≠ new'.vsyncActive then
        CONFIG_CHANGE_BIT_VSYNC else 0) +
      (if old.bboxEnable ≠ new'.bboxEnable then
        CONFIG_CHANGE_BIT_BBOX else 0) +
      (if tsc then CONFIG_CHANGE_BIT_TARGET_SIZE else 0) ∧
    (Renderer.changedBits old new' tsc = 0 ↔
      (old.hostConfigBits = new'.hostConfigBits ∧
       old.stereoMode = new'.stereoMode ∧
       old.multisamples = new'.multisamples ∧
       old.maxAnisotropy = new'.maxAnisotropy ∧
       old.forceFiltering = new'.forceFiltering ∧
       old.vsyncActive = new'.vsyncActive ∧
       old.bboxEnable = new'.bboxEnable ∧
       tsc = false)) := by
  by_cases h1 : old.hostConfigBits = new'.hostConfigBits <;>
    by_cases h2 : old.stereoMode = new'.stereoMode <;>
    by_cases h3 : old.multisamples = new'.multisamples <;>
    by_cases h4 : old.maxAnisotropy = new'.maxAnisotropy <;>
    by_cases h5 : old.forceFiltering = new'.forceFiltering <;>
    by_cases h6 : old.vsyncActive = new'.vsyncActive <;>
    by_cases h7 : old.bboxEnable = new'.bboxEnable <;>
    cases tsc <;>
    simp_all [Renderer.changedBits, CONFIG_CHANGE_BIT_HOST_CONFIG,
      CONFIG_CHANGE_BIT_MULTISAMPLES, CONFIG_CHANGE_BIT_STEREO_MODE,
      CONFIG_CHANGE_BIT_TARGET_SIZE, CONFIG_CHANGE_BIT_ANISOTROPY,
      CONFIG_CHANGE_BIT_FORCE_TEXTURE_FILTERING, CONFIG_CHANGE_BIT_VSYNC,
      CONFIG_CHANGE_BIT_BBOX]

/-- C5: when only vsync differs between two snapshots and target-size
recomputation reports no change, the mask is exactly
`CONFIG_CHANGE_BIT_VSYNC` and is forwarded to the backend hook, while
no shader/pipeline reload is requested; in general the reload happens
exactly when the host-config or multisample bit is set in the mask. -/
theorem c5_vsync_only_change (old new' : TrackedConfig)
    (h1 : old.hostConfigBits = new'.hostConfigBits)
    (h2 : old.stereoMode = new'.stereoMode)
    (h3 : old.multisamples = new'.multisamples)
    (h4 : old.maxAnisotropy = new'.maxAnisotropy)
    (h5 : old.forceFiltering = new'.forceFiltering)
    (h6 : old.vsyncActive ≠ new'.vsyncActive)
    (h7 : old.bboxEnable = new'.bboxEnable) :
    Renderer.changedBits old new' false = CONFIG_CHANGE_BIT_VSYNC ∧
    Renderer.checkForConfigChanges old new' false =
      [ConfigEffect.onConfigChanged CONFIG_CHANGE_BIT_VSYNC] ∧
    ConfigEffect.reloadShaders ∉
      Renderer.checkForConfigChanges old new' false ∧
    (∀ (o n : TrackedConfig) (t : Bool),
      ConfigEffect.reloadShaders ∈ Renderer.checkForConfigChanges o n t ↔
        Renderer.changedBits o n t &&&
          (CONFIG_CHANGE_BIT_HOST_CONFIG |||
           CONFIG_CHANGE_BIT_MULTISAMPLES) ≠ 0) := by
  have hmask : Renderer.changedBits old new' false =
      CONFIG_CHANGE_BIT_VSYNC := by
    simp_all [Renderer.changedBits, CONFIG_CHANGE_BIT_VSYNC]
  have hgen : ∀ (o n : TrackedConfig) (t : Bool),
      ConfigEffect.reloadShaders ∈ Renderer.checkForConfigChanges o n t ↔
        Renderer.changedBits o n t &&&
          (CONFIG_CHANGE_BIT_HOST_CONFIG |||
           CONFIG_CHANGE_BIT_MULTISAMPLES) ≠ 0 := by
    intro o n t
    unfold Renderer.checkForConfigChanges
    by_cases hz : Renderer.changedBits o n t = 0
    · simp [hz, CONFIG_CHANGE_BIT_HOST_CONFIG, CONFIG_CHANGE_BIT_MULTISAMPLES]
    · by_cases hr : Renderer.changedBits o n t &&&
          (CONFIG_CHANGE_BIT_HOST_CONFIG |||
           CONFIG_CHANGE_BIT_MULTISAMPLES) ≠ 0
      · simp [hz, hr]
      · simp [hz, hr]
  refine ⟨hmask, ?_, ?_, hgen⟩
  · unfold Renderer.checkForConfigChanges
    rw [hmask]
    decide
  · rw [hgen, hmask]
    decide

/-- Concrete old snapshot used by the `c5` witness. -/
def c5OldSnapshot : TrackedConfig :=
  TrackedConfig.mk 0 StereoMode.off 1 1 false false false

/-- Concrete new snapshot used by the `c5` witness: differs from
`c5OldSnapshot` only in the vsync field. -/
def c5NewSnapshot : TrackedConfig :=
  TrackedConfig.mk 0 StereoMode.off 1 1 false true false

/-- Witness for `c5_vsync_only_change` at a concrete pair of snapshots
differing only in the vsync field. -/
theorem c5_vsync_only_change_witness :
    c5OldSnapshot.vsyncActive ≠ c5NewSnapshot.vsyncActive ∧
    Renderer.changedBits c5OldSnapshot c5NewSnapshot false =
      CONFIG_CHANGE_BIT_VSYNC ∧
    Renderer.checkForConfigChanges c5OldSnapshot c5NewSnapshot false =
      [ConfigEffect.onConfigChanged CONFIG_CHANGE_BIT_VSYNC] := by
  refine ⟨by decide, ?_, ?_⟩
  · exact (c5_vsync_only_change c5OldSnapshot c5NewSnapshot rfl rfl rfl rfl
      rfl (by decide) rfl).1
  · exact (c5_vsync_only_change c5OldSnapshot c5NewSnapshot rfl rfl rfl rfl
      rfl (by decide) rfl).2.1

/-- C1: when the XFB cache entry resolved for a nonzero scan-out request
has the same identifier as the previously presented one, `Renderer::Swap`
only flushes pending draw state: no backbuffer bind, no present, no
performance sample, no frame-dump trigger, and no frame-counter
advance. -/
theorem c1_dedup_invariant (cfg : SwapConfig) (inp : SwapIn) (s : SwapState)
    (e : XFBEntry)
    (haddr : inp.xfbAddr ≠ 0) (hw : inp.fbWidth ≠ 0)
    (hstr : inp.fbStride ≠ 0) (hh : inp.fbHeight ≠ 0)
    (hentry : inp.xfbEntry = some e) (hid : e.id = s.lastXfbId) :
    SwapEffect.effFlush ∈ (Renderer.swap cfg inp s).2 ∧
    SwapEffect.effBindBackbuffer ∉ (Renderer.swap cfg inp s).2 ∧
    SwapEffect.effPresentBackbuffer ∉ (Renderer.swap cfg inp s).2 ∧
    SwapEffect.effPerformanceSample ∉ (Renderer.swap cfg inp s).2 ∧
    SwapEffect.effDumpCurrentFrame ∉ (Renderer.swap cfg inp s).2 ∧
    (Renderer.swap cfg inp s).1.frameCount = s.frameCount := by
  unfold Renderer.swap
  dsimp only
  rw [hentry]
  split_ifs with h1 h2 h3 <;>
    simp_all

/-- Concrete configuration used by the swap witnesses. -/
def c1Cfg : SwapConfig :=
  SwapConfig.mk AspectMode.auto false false false false false

/-- Concrete swap inputs used by the `c1` witness: nonzero scan-out
arguments and a resolved cache entry whose id 5 equals the previously
presented one. -/
def c1In : SwapIn :=
  SwapIn.mk 1 2 2 2 0 (some (XFBEntry.mk 5 640 480 640)) 0 0 0

/-- Concrete renderer state used by the `c1` witness, with
`lastXfbId = 5`. -/
def c1State : SwapState :=
  SwapState.mk false 5 0 720 574 0 false 0

/-- Witness for `c1_dedup_invariant` at the concrete dedup scenario. -/
theorem c1_dedup_invariant_witness :
    c1In.xfbAddr ≠ 0 ∧ c1In.fbWidth ≠ 0 ∧ c1In.fbStride ≠ 0 ∧
    c1In.fbHeight ≠ 0 ∧
    c1In.xfbEntry = some (XFBEntry.mk 5 640 480 640) ∧
    (XFBEntry.mk 5 640 480 640).id = c1State.lastXfbId ∧
    (SwapEffect.effFlush ∈ (Renderer.swap c1Cfg c1In c1State).2 ∧
     SwapEffect.effBindBackbuffer ∉ (Renderer.swap c1Cfg c1In c1State).2 ∧
     SwapEffect.effPresentBackbuffer ∉ (Renderer.swap c1Cfg c1In c1State).2 ∧
     SwapEffect.effPerformanceSample ∉ (Renderer.swap c1Cfg c1In c1State).2 ∧
     SwapEffect.effDumpCurrentFrame ∉ (Renderer.swap c1Cfg c1In c1State).2 ∧
     (Renderer.swap c1Cfg c1In c1State).1.frameCount =
       c1State.frameCount) :=
  ⟨by decide, by decide, by decide, by decide, rfl, rfl,
   c1_dedup_invariant c1Cfg c1In c1State (XFBEntry.mk 5 640 480 640)
     (by decide) (by decide) (by decide) (by decide) rfl rfl⟩

/-- The widescreen flag computed by `Renderer::Swap` is exactly the one
produced by its header heuristic block; no later statement of `Swap`
writes `m_aspect_wide`. -/
theorem swap_fst_aspectWide (cfg : SwapConfig) (inp : SwapIn)
    (s : SwapState) :
    (Renderer.swap cfg inp s).1.aspectWide =
      Renderer.updateAspectWide cfg s.aspectWide inp.flushCount43
        inp.flushCountAnamorphic := by
  unfold Renderer.swap
  dsimp only
  cases hE : inp.xfbEntry <;> split_ifs <;> simp_all <;>
    (try (split <;> simp_all))

/-- C2: in the GameCube path of `Renderer::Swap` (no suggested aspect
mode, not a Wii title), a wide renderer goes narrow exactly when the
4:3-like flush count exceeds 0.75 of the frame's total flush count, a
narrow renderer goes wide exactly when the anamorphic flush count
exceeds 0.75 of the total, and the flag is unchanged otherwise. -/
theorem c2_widescreen_hysteresis (cfg : SwapConfig) (inp : SwapIn)
    (s : SwapState)
    (hs1 : cfg.suggestedAspectMode ≠ AspectMode.analog)
    (hs2 : cfg.suggestedAspectMode ≠ AspectMode.analogWide)
    (hwii : cfg.isWii = false) :
    (s.aspectWide = true →
      ((Renderer.swap cfg inp s).1.aspectWide = false ↔
        4 * inp.flushCount43 >
          3 * (inp.flushCount43 + inp.flushCountAnamorphic))) ∧
    (s.aspectWide = false →
      ((Renderer.swap cfg inp s).1.aspectWide = true ↔
        4 * inp.flushCountAnamorphic >
          3 * (inp.flushCount43 + inp.flushCountAnamorphic))) := by
  rw [swap_fst_aspectWide cfg inp s]
  unfold Renderer.updateAspectWide
  constructor <;> intro hW <;> simp_all

/-- Concrete swap inputs used by the `c2` witness: four 4:3-like flushes
and no anamorphic flushes. -/
def c2In : SwapIn :=
  SwapIn.mk 1 2 2 2 0 none 4 0 0

/-- Concrete renderer state used by the `c2` witness: currently wide. -/
def c2State : SwapState :=
  SwapState.mk true 5 0 720 574 0 false 0

/-- Witness for `c2_widescreen_hysteresis` at a concrete frame where all
four flushes are 4:3-like, flipping the renderer from wide to narrow. -/
theorem c2_widescreen_hysteresis_witness :
    c1Cfg.suggestedAspectMode ≠ AspectMode.analog ∧
    c1Cfg.suggestedAspectMode ≠ AspectMode.analogWide ∧
    c1Cfg.isWii = false ∧
    (c2State.aspectWide = true →
      ((Renderer.swap c1Cfg c2In c2State).1.aspectWide = false ↔
        4 * c2In.flushCount43 >
          3 * (c2In.flushCount43 + c2In.flushCountAnamorphic))) :=
  ⟨by decide, by decide, rfl,
   (c2_widescreen_hysteresis c1Cfg c2In c2State (by decide) (by decide)
     rfl).1⟩

/-- C10: a `Renderer::Swap` call in which any of the scan-out arguments
is zero only flushes pending draw state: no texture-cache lookup, no
backbuffer bind, no present, no performance sample, no dump trigger, no
frame-counter advance, and the XFB dedup/tracking fields are left
unchanged. -/
theorem c10_zero_scanout_flush_only (cfg : SwapConfig) (inp : SwapIn)
    (s : SwapState)
    (h : inp.xfbAddr = 0 ∨ inp.fbWidth = 0 ∨ inp.fbStride = 0 ∨
      inp.fbHeight = 0) :
    SwapEffect.effFlush ∈ (Renderer.swap cfg inp s).2 ∧
    (∀ a b c, SwapEffect.effGetXFBTexture a b c ∉
      (Renderer.swap cfg inp s).2) ∧
    SwapEffect.effBindBackbuffer ∉ (Renderer.swap cfg inp s).2 ∧
    SwapEffect.effPresentBackbuffer ∉ (Renderer.swap cfg inp s).2 ∧
    SwapEffect.effPerformanceSample ∉ (Renderer.swap cfg inp s).2 ∧
    SwapEffect.effDumpCurrentFrame ∉ (Renderer.swap cfg inp s).2 ∧
    (Renderer.swap cfg inp s).1.frameCount = s.frameCount ∧
    (Renderer.swap cfg inp s).1.lastXfbId = s.lastXfbId ∧
    (Renderer.swap cfg inp s).1.lastXfbWidth = s.lastXfbWidth ∧
    (Renderer.swap cfg inp s).1.lastXfbHeight = s.lastXfbHeight := by
  have hcond : ¬(inp.xfbAddr ≠ 0 ∧ inp.fbWidth ≠ 0 ∧ inp.fbStride ≠ 0 ∧
      inp.fbHeight ≠ 0) := by tauto
  unfold Renderer.swap
  dsimp only
  split_ifs <;> simp_all

/-- Concrete swap inputs used by the `c10` witness: a zero XFB address. -/
def c10In : SwapIn :=
  SwapIn.mk 0 2 2 2 0 none 0 0 0

/-- Witness for `c10_zero_scanout_flush_only` at a concrete call with a
zero XFB address. -/
theorem c10_zero_scanout_flush_only_witness :
    (c10In.xfbAddr = 0 ∨ c10In.fbWidth = 0 ∨ c10In.fbStride = 0 ∨
      c10In.fbHeight = 0) ∧
    (SwapEffect.effFlush ∈ (Renderer.swap c1Cfg c10In c1State).2 ∧
     (∀ a b c, SwapEffect.effGetXFBTexture a b c ∉
       (Renderer.swap c1Cfg c10In c1State).2) ∧
     SwapEffect.effBindBackbuffer ∉ (Renderer.swap c1Cfg c10In c1State).2 ∧
     SwapEffect.effPresentBackbuffer ∉
       (Renderer.swap c1Cfg c10In c1State).2 ∧
     SwapEffect.effPerformanceSample ∉
       (Renderer.swap c1Cfg c10In c1State).2 ∧
     SwapEffect.effDumpCurrentFrame ∉ (Renderer.swap c1Cfg c10In c1State).2 ∧
     (Renderer.swap c1Cfg c10In c1State).1.frameCount =
       c1State.frameCount ∧
     (Renderer.swap c1Cfg c10In c1State).1.lastXfbId = c1State.lastXfbId ∧
     (Renderer.swap c1Cfg c10In c1State).1.lastXfbWidth =
       c1State.lastXfbWidth ∧
     (Renderer.swap c1Cfg c10In c1State).1.lastXfbHeight =
       c1State.lastXfbHeight) :=
  ⟨Or.inl rfl,
   c10_zero_scanout_flush_only c1Cfg c10In c1State (Or.inl rfl)⟩

/-- C6: once `DumpFrameData` has handed a job to the worker (lazily
starting the thread when it was not running) and no wait has intervened,
the shutdown path waits on the worker's done event and joins the thread
before returning: its action trace ends with the start-signal/join pair
and contains the blocking done-wait strictly before them. -/
theorem c6_shutdown_drains_dump (s : DumpState) (mapOk : Bool) :
    (Renderer.dumpFrameData s).1.threadRunning = true ∧
    DumpAction.aSpawnThread ∈
      (Renderer.dumpFrameData { s with threadRunning := false }).2 ∧
    (Renderer.shutdownFrameDumping mapOk (Renderer.dumpFrameData s).1).2 =
      (Renderer.shutdownFrameDumping mapOk
          (Renderer.dumpFrameData s).1).2.dropLast.dropLast ++
        [DumpAction.aSignalStart, DumpAction.aJoinThread] ∧
    DumpAction.aWaitDone ∈
      (Renderer.shutdownFrameDumping mapOk
          (Renderer.dumpFrameData s).1).2.dropLast.dropLast := by
  rcases s with ⟨fr, tr, le, sc, df⟩
  cases fr <;> cases tr <;> cases le <;> cases sc <;> cases df <;>
    cases mapOk <;> decide

/-- C9: when continuous dumping is enabled but the dump sink has not yet
been opened, a failed open on the worker thread clears the dump-frames
setting, writes no frame that iteration, and still signals done so
rendering continues; and with the setting cleared, later iterations
neither open a sink nor write frames. -/
theorem c9_dump_start_failure (s : WorkerState)
    (hd : s.dumpFrames = true) (hs : s.frameDumpStarted = false) :
    (Renderer.workerIteration false s).1.dumpFrames = false ∧
    (Renderer.workerIteration false s).1.frameDumpStarted = false ∧
    (∀ b, WorkerAction.wWriteFrame b ∉ (Renderer.workerIteration false s).2) ∧
    WorkerAction.wSignalDone ∈ (Renderer.workerIteration false s).2 ∧
    (∀ (s₂ : WorkerState) (ok : Bool), s₂.dumpFrames = false →
      (Renderer.workerIteration ok s₂).1.dumpFrames = false ∧
      (∀ b, WorkerAction.wWriteFrame b ∉ (Renderer.workerIteration ok s₂).2) ∧
      (∀ b, WorkerAction.wStartSink b ∉
        (Renderer.workerIteration ok s₂).2)) := by
  have hrest : ∀ (s₂ : WorkerState) (ok : Bool), s₂.dumpFrames = false →
      (Renderer.workerIteration ok s₂).1.dumpFrames = false ∧
      (∀ b, WorkerAction.wWriteFrame b ∉ (Renderer.workerIteration ok s₂).2) ∧
      (∀ b, WorkerAction.wStartSink b ∉
        (Renderer.workerIteration ok s₂).2) := by
    intro s₂ ok h
    rcases s₂ with ⟨avi, st, df, sc⟩
    cases h
    cases avi <;> cases st <;> cases sc <;> cases ok <;> decide
  refine ⟨?_, ?_, ?_, ?_, hrest⟩ <;>
    · rcases s with ⟨avi, st, df, sc⟩
      cases hd
      cases hs
      cases avi <;> cases sc <;> decide

/-- Concrete worker state used by the `c9` witness: continuous AVI
dumping enabled, sink not yet opened, no pending screenshot. -/
def c9State : WorkerState :=
  WorkerState.mk true false true false

/-- Witness for `c9_dump_start_failure` at the concrete state where the
sink open fails on the first dump iteration. -/
theorem c9_dump_start_failure_witness :
    c9State.dumpFrames = true ∧ c9State.frameDumpStarted = false ∧
    ((Renderer.workerIteration false c9State).1.dumpFrames = false ∧
     (∀ b, WorkerAction.wWriteFrame b ∉
       (Renderer.workerIteration false c9State).2) ∧
     WorkerAction.wSignalDone ∈ (Renderer.workerIteration false c9State).2) :=
  ⟨rfl, rfl,
   (c9_dump_start_failure c9State rfl rfl).1,
   (c9_dump_start_failure c9State rfl rfl).2.2.1,
   (c9_dump_start_failure c9State rfl rfl).2.2.2.1⟩

/-- C8: surface-handle replacement and resize notifications only raise
pending flags, bracketed by the swap-mutex lock; surface state (live
surface, backbuffer size, seen fullscreen state) changes only inside
`BindBackbuffer`, which drains the flags — never during a draw or a
present — and a bind with no pending notification and unchanged
fullscreen state applies nothing. -/
theorem c8_surface_apply_at_bind_only :
    (∀ (h : ℕ) (s : SurfaceState),
      (Renderer.changeSurface h s).2 =
        [LockAction.lockSwapMutex, LockAction.setPendingState,
         LockAction.unlockSwapMutex] ∧
      (Renderer.changeSurface h s).1.currentSurface = s.currentSurface ∧
      (Renderer.changeSurface h s).1.backbufferWidth = s.backbufferWidth ∧
      (Renderer.changeSurface h s).1.backbufferHeight =
        s.backbufferHeight ∧
      (Renderer.changeSurface h s).1.lastFullscreenState =
        s.lastFullscreenState) ∧
    (∀ s : SurfaceState,
      (Renderer.resizeSurface s).2 =
        [LockAction.lockSwapMutex, LockAction.setPendingState,
         LockAction.unlockSwapMutex] ∧
      (Renderer.resizeSurface s).1.currentSurface = s.currentSurface ∧
      (Renderer.resizeSurface s).1.backbufferWidth = s.backbufferWidth ∧
      (Renderer.resizeSurface s).1.backbufferHeight = s.backbufferHeight ∧
      (Renderer.resizeSurface s).1.lastFullscreenState =
        s.lastFullscreenState) ∧
    (∀ s : SurfaceState, Renderer.surfaceStep SurfaceOp.rDraw s = s ∧
      Renderer.surfaceStep SurfaceOp.rPresent s = s) ∧
    (∀ (env : SurfaceEnv) (s : SurfaceState),
      (Renderer.surfaceStep (SurfaceOp.rBindBackbuffer env) s).surfaceChanged
          = false ∧
      (Renderer.surfaceStep (SurfaceOp.rBindBackbuffer env) s).surfaceResized
          = false) ∧
    (∀ (env : SurfaceEnv) (s : SurfaceState),
      Renderer.surfaceStep (SurfaceOp.rBindBackbuffer env)
          { s with surfaceChanged := false, surfaceResized := false,
                   lastFullscreenState := env.fullscreenState } =
        { s with surfaceChanged := false, surfaceResized := false,
                 lastFullscreenState := env.fullscreenState }) := by
  refine ⟨?_, ?_, ?_, ?_, ?_⟩
  · intro h s
    exact ⟨rfl, rfl, rfl, rfl, rfl⟩
  · intro s
    exact ⟨rfl, rfl, rfl, rfl, rfl⟩
  · intro s
    exact ⟨rfl, rfl⟩
  · intro env s
    unfold Renderer.surfaceStep DX11.bindBackbuffer DX11.checkForSurfaceChange
      DX11.checkForSurfaceResize
    dsimp only
    split_ifs <;> simp_all
  · intro env s
    unfold Renderer.surfaceStep DX11.bindBackbuffer DX11.checkForSurfaceChange
      DX11.checkForSurfaceResize
    dsimp only
    split_ifs <;> simp_all
